import Mathlib

/-!
Verification of `Scripts/extract_media.py` — the Stellaris media extraction
and AVIF conversion pipeline.

The Python script is shallowly embedded here.  Pure computations
(manifest construction, path derivation) become Lean functions over
`String` paths (`Path` joining `a / b` is modelled as `a ++ "/" ++ b`).
Stateful code (the processing loop in `main`) becomes explicit state
passing over `RunState`, which carries the `Stats` accumulator, the set
of files produced under the output root, and a trace of external
effects (directory creation and external-tool invocations).  The
environment — the filesystem and the two external tools `magick` and
`avifenc` — is a `World` of oracles: each external invocation's outcome
(`ToolResult`) and each file-existence / file-size query is given by the
world, so a run of the embedded `main` is a deterministic function of
its arguments and the world.
-/

namespace ExtractMedia

/-- Path joining, modelling Python `pathlib`'s `a / b`. -/
def pjoin (a b : String) : String := a ++ "/" ++ b

/-- The fixed category-icon identifiers (`CATEGORY_ICONS` in the script). -/
def CATEGORY_ICONS : List String :=
  ["archaeostudies", "biology", "computing", "field_manipulation",
   "industry", "materials", "military_theory", "new_worlds",
   "particles", "propulsion", "psionics", "statecraft", "voidcraft"]

/-- The fixed background textures (`BACKGROUND_TEXTURES`): name ↦ relative source path.
Python dicts iterate in insertion order, so the mapping is a list of pairs. -/
def BACKGROUND_TEXTURES : List (String × String) :=
  [("tech_bg_physics",     "gfx/interface/tech_view/tech_bg_physics.dds"),
   ("tech_bg_society",     "gfx/interface/tech_view/tech_bg_society.dds"),
   ("tech_bg_engineering", "gfx/interface/tech_view/tech_bg_engineering.dds"),
   ("tech_bg_rare",        "gfx/interface/tech_view/tech_bg_rare.dds"),
   ("tech_bg_dangerous",   "gfx/interface/tech_view/tech_bg_dangerous.dds")]

/-- The fixed UI textures (`UI_TEXTURES`). -/
def UI_TEXTURES : List (String × String) :=
  [("background_tutorial_detailed", "gfx/interface/tutorial_mission_window/background_tutorial_detailed.dds"),
   ("extradimensional_blue_room",   "gfx/portraits/city_sets/extradimensional_blue_room.dds")]

/-- The checkbox sprite sheet (`CHECKBOX_SPRITE`). -/
def CHECKBOX_SPRITE : List (String × String) :=
  [("button_24_24_checkbox", "gfx/interface/buttons/button_24_24_checkbox.dds")]

/-- A crop rectangle (x, y, width, height). -/
abbrev CropRegion := Nat × Nat × Nat × Nat

/-- The checkbox crop regions (`CHECKBOX_REGIONS`), in dict insertion order. -/
def CHECKBOX_REGIONS : List (String × CropRegion) :=
  [("checkbox_normal",  (11, 11, 26, 26)),
   ("checkbox_pressed", (59, 11, 26, 26)),
   ("checkbox_hover",   (107, 11, 26, 26))]

/-- The output subdirectory names (`SUBDIRS`). -/
def SUBDIRS : List String :=
  ["tech_icons", "swap_icons", "category_icons", "backgrounds", "ui", "sprites"]

/-- A single asset to extract and convert (the `AssetEntry` dataclass). -/
structure AssetEntry where
  name : String
  category : String
  src_dds : String
  dst_png : String
  dst_avif : String
  lossless : Bool := true
  deriving Repr, DecidableEq

/-- Running extraction statistics (the `Stats` dataclass). -/
structure Stats where
  total : Nat := 0
  converted : Nat := 0
  skipped : Nat := 0
  failed : Nat := 0
  dds_bytes : Nat := 0
  png_bytes : Nat := 0
  avif_bytes : Nat := 0
  errors : List String := []
  warnings : List String := []
  deriving Repr, DecidableEq

/-- Structured data as read from the JSON metadata files. -/
inductive Json where
  | jnull : Json
  | jbool : Bool → Json
  | jnum : Int → Json
  | jstr : String → Json
  | jarr : List Json → Json
  | jobj : List (String × Json) → Json

/-- First-match key lookup in a JSON object's field list (Python dicts have
unique keys, so first-match agrees with dict indexing). -/
def jlookup (k : String) : List (String × Json) → Option Json
  | [] => none
  | (k', v) :: rest => if k' = k then some v else jlookup k rest

/-- Lexicographic comparison of character lists by code point. -/
def charListLe : List Char → List Char → Bool
  | [], _ => true
  | _ :: _, [] => false
  | c :: cs, d :: ds => if c < d then true else if d < c then false else charListLe cs ds

/-- Lexicographic string comparison by code point — the order Python's
`sorted` uses on `str`. -/
def strLe (a b : String) : Bool := charListLe a.data b.data

/-- Python `sorted(set(l))` for a list of strings: deduplicate, then sort
ascending (insertion sort; `sorted` is an abstract ascending sort and the
deduplicated input makes the sorted permutation unique). -/
def sortedSet (l : List String) : List String :=
  l.dedup.insertionSort (fun a b => strLe a b = true)

/-- Extraction of `sorted({t["icon"] for t in techs.values()})` from the parsed
`technologies.json` value, as an `Except`: the source raises (and thereby
aborts the run) when the top level is not an object, a technology record is
not an object, or a record lacks the `icon` key.  A non-string `icon` value is
likewise treated as a shape error. This function returns the raw icon list in
record order; `build_asset_manifest` applies `sortedSet`. -/
def techIconsOf : Json → Except String (List String)
  | Json.jobj fields =>
      fields.mapM (fun kv =>
        match kv.2 with
        | Json.jobj tf =>
            match jlookup "icon" tf with
            | some (Json.jstr s) => Except.ok s
            | some _ => Except.error "technologies.json: icon value is not a string"
            | none => Except.error "KeyError: icon"
        | _ => Except.error "TypeError: technology record is not an object")
  | _ => Except.error "AttributeError: technologies.json top level is not an object"

/-- Extraction of the swap-record names from the parsed
`technology_swaps.json` value: for each group (a list), every record that
carries a `name` key contributes that name; records without a `name` key are
skipped.  The source raises when the top level is not an object or a group
value is not a list; a non-object record or a non-string `name` value is
likewise treated as a shape error. -/
def swapNamesOf : Json → Except String (List String)
  | Json.jobj groups => do
      let lists ← groups.mapM (fun kv =>
        match kv.2 with
        | Json.jarr items =>
            items.mapM (fun it =>
              match it with
              | Json.jobj sf =>
                  match jlookup "name" sf with
                  | some (Json.jstr s) => Except.ok (some s)
                  | some _ => Except.error "technology_swaps.json: name value is not a string"
                  | none => Except.ok none
              | _ => Except.error "TypeError: swap record is not an object")
        | _ => Except.error "TypeError: swap group is not a list")
      Except.ok (lists.flatten.filterMap id)
  | _ => Except.error "AttributeError: technology_swaps.json top level is not an object"

/-- The pure core of `build_asset_manifest`: given the raw technology icon
names (the `t["icon"]` values in record order) and the raw swap-record names,
produce the full ordered asset manifest.  Mirrors the source exactly:
sorted unique tech icons, then sorted unique swap names minus the tech-icon
set, then the fixed category / background / UI / checkbox blocks. -/
def build_asset_manifest (stellaris_path output_dir : String)
    (tech_icon_names swap_record_names : List String) : List AssetEntry :=
  let png_base := pjoin output_dir "png"
  let avif_base := pjoin output_dir "avif"
  let tech_icons := sortedSet tech_icon_names
  let swap_icons := sortedSet (swap_record_names.filter (fun n => !tech_icons.contains n))
  tech_icons.map (fun icon =>
    { name := icon, category := "tech_icons",
      src_dds := pjoin (pjoin stellaris_path "gfx/interface/icons/technologies") (icon ++ ".dds"),
      dst_png := pjoin (pjoin png_base "tech_icons") (icon ++ ".png"),
      dst_avif := pjoin (pjoin avif_base "tech_icons") (icon ++ ".avif"),
      lossless := true })
  ++ swap_icons.map (fun icon =>
    { name := icon, category := "swap_icons",
      src_dds := pjoin (pjoin stellaris_path "gfx/interface/icons/technologies") (icon ++ ".dds"),
      dst_png := pjoin (pjoin png_base "swap_icons") (icon ++ ".png"),
      dst_avif := pjoin (pjoin avif_base "swap_icons") (icon ++ ".avif"),
      lossless := true })
  ++ CATEGORY_ICONS.map (fun cat =>
    { name := "category_" ++ cat, category := "category_icons",
      src_dds := pjoin (pjoin stellaris_path "gfx/interface/icons/technologies/categories")
        ("category_" ++ cat ++ ".dds"),
      dst_png := pjoin (pjoin png_base "category_icons") ("category_" ++ cat ++ ".png"),
      dst_avif := pjoin (pjoin avif_base "category_icons") ("category_" ++ cat ++ ".avif"),
      lossless := true })
  ++ BACKGROUND_TEXTURES.map (fun p =>
    { name := p.1, category := "backgrounds",
      src_dds := pjoin stellaris_path p.2,
      dst_png := pjoin (pjoin png_base "backgrounds") (p.1 ++ ".png"),
      dst_avif := pjoin (pjoin avif_base "backgrounds") (p.1 ++ ".avif"),
      lossless := false })
  ++ UI_TEXTURES.map (fun p =>
    { name := p.1, category := "ui",
      src_dds := pjoin stellaris_path p.2,
      dst_png := pjoin (pjoin png_base "ui") (p.1 ++ ".png"),
      dst_avif := pjoin (pjoin avif_base "ui") (p.1 ++ ".avif"),
      lossless := false })
  ++ CHECKBOX_SPRITE.map (fun p =>
    { name := p.1, category := "sprites",
      src_dds := pjoin stellaris_path p.2,
      dst_png := pjoin (pjoin png_base "sprites") (p.1 ++ ".png"),
      dst_avif := pjoin (pjoin avif_base "sprites") (p.1 ++ ".avif"),
      lossless := true })

/-- The builder `build_asset_manifest` including its file reads: the two metadata files
are given as `Option (Option Json)` — `none` when the file is absent
(`FileNotFoundError` from `open`), `some none` when it is present but not
valid JSON (`json.JSONDecodeError` from `json.load`), `some (some j)` when it
parses to `j`.  Any error here models an exception that propagates out of
`build_asset_manifest` (and hence out of `main`) uncaught. The technologies
file is fully read and parsed before the swaps file is opened, as in the
source. -/
def build_asset_manifest_io (stellaris_path output_dir : String)
    (tech_json swap_json : Option (Option Json)) : Except String (List AssetEntry) := do
  let techsJson ← match tech_json with
    | none => Except.error "FileNotFoundError: technologies.json"
    | some none => Except.error "json.JSONDecodeError: technologies.json"
    | some (some j) => Except.ok j
  let tech_icon_names ← techIconsOf techsJson
  let swapsJson ← match swap_json with
    | none => Except.error "FileNotFoundError: technology_swaps.json"
    | some none => Except.error "json.JSONDecodeError: technology_swaps.json"
    | some (some j) => Except.ok j
  let swap_record_names ← swapNamesOf swapsJson
  Except.ok (build_asset_manifest stellaris_path output_dir tech_icon_names swap_record_names)

/-- The outcome of one external-tool invocation (`subprocess.run`):
it completed with a return code and captured stderr, it hit the
`timeout=` bound (`subprocess.TimeoutExpired`), or invoking it raised some
other exception. -/
inductive ToolResult where
  | completed : Int → String → ToolResult
  | timedOut : ToolResult
  | raised : String → ToolResult
  deriving Repr, DecidableEq

/-- Stage one, `dds_to_png`: convert a DDS file to PNG using ImageMagick.  Returns the
boolean result together with the error lines it logs; every outcome of the
tool invocation maps to a return value (the source catches
`TimeoutExpired` and `Exception`), so nothing escapes to the caller. -/
def dds_to_png (src dst : String) (r : ToolResult) : Bool × List String :=
  let cmd := "magick " ++ src ++ " " ++ dst
  match r with
  | ToolResult.completed rc stderr =>
      if rc ≠ 0 then (false, ["magick failed: " ++ cmd ++ " stderr: " ++ stderr])
      else (true, [])
  | ToolResult.timedOut => (false, ["magick timed out: " ++ cmd])
  | ToolResult.raised e => (false, ["magick exception: " ++ e])

/-- Stage two, `png_to_avif`: convert a PNG file to AVIF using avifenc.  Encoder flags
depend on the quality policy and the `jobs` count exactly as in the source
(`jobs > 0` passes the count, otherwise `all`).  Same never-raises contract
as `dds_to_png`. -/
def png_to_avif (src dst : String) (lossless : Bool) (jobs : Int) (r : ToolResult) :
    Bool × List String :=
  let jobs_arg := if jobs > 0 then toString jobs else "all"
  let cmd :=
    if lossless then
      "avifenc --lossless -s 0 -j " ++ jobs_arg ++ " " ++ src ++ " " ++ dst
    else
      "avifenc -q 90 --qalpha 100 -s 0 -y 444 -j " ++ jobs_arg ++ " " ++ src ++ " " ++ dst
  match r with
  | ToolResult.completed rc stderr =>
      if rc ≠ 0 then (false, ["avifenc failed: " ++ cmd ++ " stderr: " ++ stderr])
      else (true, [])
  | ToolResult.timedOut => (false, ["avifenc timed out (120s): " ++ cmd])
  | ToolResult.raised e => (false, ["avifenc exception: " ++ e])

/-- The cropper `crop_sprite`: crop a region from a PNG sprite sheet using ImageMagick.
The source's `try` block has no separate `TimeoutExpired` handler — the
generic `except Exception` catches a timeout too, logging it as an
exception. -/
def crop_sprite (src_png : String) (region : CropRegion) (dst_png : String) (r : ToolResult) :
    Bool × List String :=
  let cmd := "magick " ++ src_png ++ " -crop " ++ toString region.2.2.1 ++ "x" ++
    toString region.2.2.2 ++ "+" ++ toString region.1 ++ "+" ++ toString region.2.1 ++
    " +repage " ++ dst_png
  match r with
  | ToolResult.completed rc stderr =>
      if rc ≠ 0 then (false, ["magick crop failed: " ++ cmd ++ " stderr: " ++ stderr])
      else (true, [])
  | ToolResult.timedOut => (false, ["magick crop exception: TimeoutExpired"])
  | ToolResult.raised e => (false, ["magick crop exception: " ++ e])

/-- Externally visible side effects of a run: directory creation under the
output root, and invocations of the two external tools. -/
inductive Effect where
  | mkdirEff : String → Effect
  | magickConv : String → String → Effect
  | avifConv : String → String → Effect
  | magickCrop : String → String → Effect
  deriving Repr, DecidableEq

/-- Pipeline state threaded through the processing loop: the `Stats`
accumulator, the files currently present under the output root (initial
contents plus everything the tools produced), and the effect trace. -/
structure RunState where
  stats : Stats
  files : List String
  trace : List Effect
  deriving Repr, DecidableEq

/-- Command-line configuration (the `argparse` result fields the core
logic reads). -/
structure Args where
  stellaris_path : String
  output_dir : String
  data_dir : String
  dry_run : Bool
  no_avif : Bool
  jobs : Int
  deriving Repr, DecidableEq

/-- The external environment of one run: filesystem queries and the outcome
of each external-tool invocation, keyed by source and destination path. -/
structure World where
  tech_dir_is_dir : Bool
  tech_json : Option (Option Json)
  swap_json : Option (Option Json)
  has_magick : Bool
  has_avifenc : Bool
  dds_is_file : String → Bool
  dds_size : String → Nat
  out_size : String → Nat
  magick_result : String → String → ToolResult
  avif_result : String → String → ToolResult
  crop_result : String → String → ToolResult
  initial_out_files : List String

/-- One iteration of the main processing loop (`main`, the `for` body over
the manifest): skip when the source DDS is absent; otherwise stage one
(DDS→PNG), then — unless `--no-avif` — stage two (PNG→AVIF); the counters,
byte totals, warning/error lists, produced files, and the effect trace are
updated exactly as in the source. -/
def processEntry (args : Args) (w : World) (s : RunState) (entry : AssetEntry) : RunState :=
  if !w.dds_is_file entry.src_dds then
    { s with stats := { s.stats with
        skipped := s.stats.skipped + 1,
        warnings := s.stats.warnings ++ [entry.category ++ "/" ++ entry.name ++ ": DDS missing"] } }
  else
    let s1 : RunState := { s with
      stats := { s.stats with dds_bytes := s.stats.dds_bytes + w.dds_size entry.src_dds },
      trace := s.trace ++ [Effect.magickConv entry.src_dds entry.dst_png] }
    if !(dds_to_png entry.src_dds entry.dst_png (w.magick_result entry.src_dds entry.dst_png)).1 then
      { s1 with stats := { s1.stats with
          failed := s1.stats.failed + 1,
          errors := s1.stats.errors ++ [entry.category ++ "/" ++ entry.name ++ ": DDS to PNG failed"] } }
    else
      let s2 : RunState := { s1 with
        files := s1.files ++ [entry.dst_png],
        stats := { s1.stats with png_bytes := s1.stats.png_bytes + w.out_size entry.dst_png } }
      if !args.no_avif then
        let s3 : RunState := { s2 with
          trace := s2.trace ++ [Effect.avifConv entry.dst_png entry.dst_avif] }
        if !(png_to_avif entry.dst_png entry.dst_avif entry.lossless args.jobs
              (w.avif_result entry.dst_png entry.dst_avif)).1 then
          { s3 with stats := { s3.stats with
              failed := s3.stats.failed + 1,
              errors := s3.stats.errors ++ [entry.category ++ "/" ++ entry.name ++ ": PNG to AVIF failed"] } }
        else
          { s3 with
            files := s3.files ++ [entry.dst_avif],
            stats := { s3.stats with
              avif_bytes := s3.stats.avif_bytes + w.out_size entry.dst_avif,
              converted := s3.stats.converted + 1 } }
      else
        { s2 with stats := { s2.stats with converted := s2.stats.converted + 1 } }

/-- The main pass: fold `processEntry` over the manifest. -/
def mainPass (args : Args) (w : World) (manifest : List AssetEntry) (s : RunState) : RunState :=
  manifest.foldl (processEntry args w) s

/-- The intermediate output of the checkbox sprite sheet
(`output_dir / "png" / "sprites" / "button_24_24_checkbox.png"`). -/
def checkbox_png_path (args : Args) : String :=
  pjoin (pjoin (pjoin args.output_dir "png") "sprites") "button_24_24_checkbox.png"

/-- Destination of one sprite crop's PNG. -/
def crop_png_path (args : Args) (crop_name : String) : String :=
  pjoin (pjoin (pjoin args.output_dir "png") "sprites") (crop_name ++ ".png")

/-- Destination of one sprite crop's AVIF. -/
def crop_avif_path (args : Args) (crop_name : String) : String :=
  pjoin (pjoin (pjoin args.output_dir "avif") "sprites") (crop_name ++ ".avif")

/-- One iteration of the checkbox-crop loop in `main`: crop the region from
the checkbox sheet, and — unless `--no-avif` — convert the crop to AVIF
(always lossless).  As in the source, a failed crop or a failed AVIF
conversion appends to `stats.errors` (without touching the `failed`
counter), and a successful crop adds byte sizes (without touching the
`converted` counter). -/
def cropStep (args : Args) (w : World) (s : RunState) (c : String × CropRegion) : RunState :=
  let checkbox_png := checkbox_png_path args
  let crop_png := crop_png_path args c.1
  let crop_avif := crop_avif_path args c.1
  let s0 : RunState := { s with trace := s.trace ++ [Effect.magickCrop checkbox_png crop_png] }
  if (crop_sprite checkbox_png c.2 crop_png (w.crop_result checkbox_png crop_png)).1 then
    let s1 : RunState := { s0 with
      files := s0.files ++ [crop_png],
      stats := { s0.stats with png_bytes := s0.stats.png_bytes + w.out_size crop_png } }
    if !args.no_avif then
      let s2 : RunState := { s1 with trace := s1.trace ++ [Effect.avifConv crop_png crop_avif] }
      if (png_to_avif crop_png crop_avif true args.jobs (w.avif_result crop_png crop_avif)).1 then
        { s2 with
          files := s2.files ++ [crop_avif],
          stats := { s2.stats with avif_bytes := s2.stats.avif_bytes + w.out_size crop_avif } }
      else
        { s2 with stats := { s2.stats with
            errors := s2.stats.errors ++ ["sprites/" ++ c.1 ++ ": PNG to AVIF failed"] } }
    else s1
  else
    { s0 with stats := { s0.stats with
        errors := s0.stats.errors ++ ["sprites/" ++ c.1 ++ ": crop failed"] } }

/-- The sprite-crop pass: when the checkbox sheet's intermediate PNG exists,
run every crop region through `cropStep`; otherwise record a warning and skip
all crops. -/
def processCrops (args : Args) (w : World) (s : RunState) : RunState :=
  if s.files.contains (checkbox_png_path args) then
    CHECKBOX_REGIONS.foldl (cropStep args w) s
  else
    { s with stats := { s.stats with
        warnings := s.stats.warnings ++ ["Checkbox sprite sheet missing, crops skipped"] } }

/-- The output directories created before the loop (lines 464–467 of the
script): `png/<subdir>` always, `avif/<subdir>` unless `--no-avif`. -/
def mkdirEffects (args : Args) : List Effect :=
  SUBDIRS.foldl (fun acc sub =>
    acc ++ [Effect.mkdirEff (pjoin (pjoin args.output_dir "png") sub)] ++
      (if !args.no_avif then [Effect.mkdirEff (pjoin (pjoin args.output_dir "avif") sub)] else []))
    []

/-- The pipeline state at loop entry: fresh stats with `total` set to the
manifest length, the pre-existing output files, and the directory-creation
effects. -/
def loopInit (args : Args) (w : World) (manifest : List AssetEntry) : RunState :=
  { stats := { total := manifest.length }, files := w.initial_out_files,
    trace := mkdirEffects args }

/-- The script's `main`: pre-flight validation (Stellaris path, presence of
`technologies.json`, the required tools), manifest construction, the dry-run
early return, the processing loop, the sprite-crop pass, and the final exit
code `1 if stats.failed > 0 else 0`.  Early validation failures return 1 with
nothing done; an exception escaping `build_asset_manifest` (absent or
malformed metadata) makes the Python process exit with status 1 before any
conversion, which is modelled the same way. -/
def main (args : Args) (w : World) : Int × RunState :=
  let s0 : RunState := { stats := {}, files := w.initial_out_files, trace := [] }
  if !w.tech_dir_is_dir then (1, s0)
  else if !(w.tech_json.isSome) then (1, s0)
  else if !w.has_magick then (1, s0)
  else if !args.no_avif && !w.has_avifenc then (1, s0)
  else
    match build_asset_manifest_io args.stellaris_path args.output_dir w.tech_json w.swap_json with
    | Except.error _ => (1, s0)
    | Except.ok manifest =>
      if args.dry_run then (0, s0)
      else
        let s3 := processCrops args w (mainPass args w manifest (loopInit args w manifest))
        (if s3.stats.failed > 0 then 1 else 0, s3)

/-! ### Properties of `sortedSet` -/

theorem mem_sortedSet {a : String} {l : List String} : a ∈ sortedSet l ↔ a ∈ l := by
  unfold sortedSet
  rw [(List.perm_insertionSort _ l.dedup).mem_iff, List.mem_dedup]

theorem nodup_sortedSet (l : List String) : (sortedSet l).Nodup := by
  unfold sortedSet
  exact ((List.perm_insertionSort _ l.dedup).nodup_iff).mpr (List.nodup_dedup l)

theorem count_sortedSet_of_mem {a : String} {l : List String} (h : a ∈ l) :
    (sortedSet l).count a = 1 :=
  List.count_eq_one_of_mem (nodup_sortedSet l) (mem_sortedSet.mpr h)

theorem count_sortedSet_of_not_mem {a : String} {l : List String} (h : a ∉ l) :
    (sortedSet l).count a = 0 :=
  List.count_eq_zero.mpr (fun hm => h (mem_sortedSet.mp hm))

/-! ### Claims about the manifest builder -/

/-- C4: every descriptor in the built manifest is lossy (`lossless = false`)
exactly when its category is `backgrounds` or `ui`, and lossless
(`lossless = true`) for every other category. -/
theorem c4_quality_policy (sp od : String) (ti sn : List String) (e : AssetEntry)
    (he : e ∈ build_asset_manifest sp od ti sn) :
    (e.lossless = true ↔ ¬(e.category = "backgrounds" ∨ e.category = "ui")) ∧
    (e.lossless = false ↔ (e.category = "backgrounds" ∨ e.category = "ui")) := by
  simp only [build_asset_manifest, List.mem_append, List.mem_map] at he
  rcases he with
    (((((⟨x, hx, rfl⟩ | ⟨x, hx, rfl⟩) | ⟨x, hx, rfl⟩) | ⟨x, hx, rfl⟩) | ⟨x, hx, rfl⟩) |
      ⟨x, hx, rfl⟩) <;> simp

/-- Witness entry for `c4_quality_policy`: the sole tech icon descriptor of a
one-icon manifest. -/
def c4Entry : AssetEntry :=
  { name := "a", category := "tech_icons",
    src_dds := "S/gfx/interface/icons/technologies/a.dds",
    dst_png := "O/png/tech_icons/a.png",
    dst_avif := "O/avif/tech_icons/a.avif",
    lossless := true }

theorem c4_quality_policy_witness :
    c4Entry ∈ build_asset_manifest "S" "O" ["a"] [] ∧
    ((c4Entry.lossless = true ↔ ¬(c4Entry.category = "backgrounds" ∨ c4Entry.category = "ui")) ∧
     (c4Entry.lossless = false ↔ (c4Entry.category = "backgrounds" ∨ c4Entry.category = "ui"))) :=
  ⟨by decide, c4_quality_policy "S" "O" ["a"] [] c4Entry (by decide)⟩

/-- The technologies metadata of the worked example:
`{"tech_lasers": {"icon": "laser_1"}, "tech_armor": {"icon": "armor_1"}}`. -/
def exTechsJson : Json := Json.jobj
  [("tech_lasers", Json.jobj [("icon", Json.jstr "laser_1")]),
   ("tech_armor", Json.jobj [("icon", Json.jstr "armor_1")])]

/-- The swaps metadata of the worked example:
`{"group1": [{"name": "laser_1"}, {"name": "special_swap"}]}`. -/
def exSwapsJson : Json := Json.jobj
  [("group1", Json.jarr [Json.jobj [("name", Json.jstr "laser_1")],
                         Json.jobj [("name", Json.jstr "special_swap")]])]

/-- Technologies metadata whose icon name coincides with a fixed
category-icon name. -/
def c3TechsJson : Json := Json.jobj
  [("t1", Json.jobj [("icon", Json.jstr "category_archaeostudies")])]

/-- Swaps metadata carrying the same colliding name. -/
def c3SwapsJson : Json := Json.jobj
  [("g", Json.jarr [Json.jobj [("name", Json.jstr "category_archaeostudies")]])]

/-- C3 counterexample: for the icon name `category_archaeostudies`, present in
both the technology mapping and the swap-group mapping, the built manifest
contains TWO descriptors with that name — the deduplicated tech-icon
descriptor and the fixed-list category-icon descriptor — so the claim that
the manifest contains exactly one descriptor for any such name fails. -/
theorem c3_dedup_counterexample :
    techIconsOf c3TechsJson = Except.ok ["category_archaeostudies"] ∧
    swapNamesOf c3SwapsJson = Except.ok ["category_archaeostudies"] ∧
    ((build_asset_manifest "S" "O" ["category_archaeostudies"] ["category_archaeostudies"]).filter
      (fun e => e.name == "category_archaeostudies")).length = 2 ∧
    ¬((build_asset_manifest "S" "O" ["category_archaeostudies"]
        ["category_archaeostudies"]).filter
      (fun e => e.name == "category_archaeostudies")).length = 1 := by
  refine ⟨by rfl, by rfl, by decide, by decide⟩

/-- General deduplication property of the manifest builder: an icon name
present in both source lists yields exactly one icon descriptor, in the
primary `tech_icons` category (helper for the amended C3). -/
theorem c3_general (sp od : String) (ti sn : List String) (n : String)
    (h1 : n ∈ ti) (h2 : n ∈ sn) :
    ((build_asset_manifest sp od ti sn).filter
      (fun e => e.name == n && (e.category == "tech_icons" || e.category == "swap_icons"))).length = 1 ∧
    (∀ e ∈ build_asset_manifest sp od ti sn,
      e.name = n → (e.category = "tech_icons" ∨ e.category = "swap_icons") →
        e.category = "tech_icons") := by
  have hnot : n ∉ sn.filter (fun m => !(sortedSet ti).contains m) := by
    intro hmem
    have hp := List.of_mem_filter hmem
    simp only [Bool.not_eq_true'] at hp
    have hp2 : n ∉ sortedSet ti := by simpa using hp
    exact hp2 (mem_sortedSet.mpr h1)
  constructor
  · rw [← List.countP_eq_length_filter]
    simp only [build_asset_manifest, List.countP_append, List.countP_map, Function.comp_def]
    simp only [show (("tech_icons" : String) == "tech_icons") = true from rfl,
      show (("tech_icons" : String) == "swap_icons") = false from rfl,
      show (("swap_icons" : String) == "tech_icons") = false from rfl,
      show (("swap_icons" : String) == "swap_icons") = true from rfl,
      show (("category_icons" : String) == "tech_icons") = false from rfl,
      show (("category_icons" : String) == "swap_icons") = false from rfl,
      show (("backgrounds" : String) == "tech_icons") = false from rfl,
      show (("backgrounds" : String) == "swap_icons") = false from rfl,
      show (("ui" : String) == "tech_icons") = false from rfl,
      show (("ui" : String) == "swap_icons") = false from rfl,
      show (("sprites" : String) == "tech_icons") = false from rfl,
      show (("sprites" : String) == "swap_icons") = false from rfl,
      Bool.or_true, Bool.true_or, Bool.or_false, Bool.false_or, Bool.and_true, Bool.and_false,
      List.countP_false]
    rw [← List.count_eq_countP, ← List.count_eq_countP,
      count_sortedSet_of_mem h1, count_sortedSet_of_not_mem hnot]
    simp [Function.const]
  · intro e he hname hcat
    simp only [build_asset_manifest, List.mem_append, List.mem_map] at he
    rcases he with
      (((((⟨x, hx, rfl⟩ | ⟨x, hx, rfl⟩) | ⟨x, hx, rfl⟩) | ⟨x, hx, rfl⟩) | ⟨x, hx, rfl⟩) |
        ⟨x, hx, rfl⟩)
    · rfl
    · exfalso
      dsimp only at hname
      subst hname
      exact hnot (mem_sortedSet.mp hx)
    · exfalso; simp at hcat
    · exfalso; simp at hcat
    · exfalso; simp at hcat
    · exfalso; simp at hcat

/-- C3 (amended): for any icon name present in both source mappings, the
manifest contains exactly one ICON descriptor (category `tech_icons` or
`swap_icons`) for that name, and it is in the primary `tech_icons` category —
a fixed-list descriptor of another category may coincidentally share the
name.  On the worked example the tech icons are `[armor_1, laser_1]` (sorted)
and the swap icons `[special_swap]` only. -/
theorem c3_dedup_amended :
    (∀ (sp od : String) (ti sn : List String) (n : String), n ∈ ti → n ∈ sn →
      ((build_asset_manifest sp od ti sn).filter
        (fun e => e.name == n && (e.category == "tech_icons" || e.category == "swap_icons"))).length = 1 ∧
      (∀ e ∈ build_asset_manifest sp od ti sn,
        e.name = n → (e.category = "tech_icons" ∨ e.category = "swap_icons") →
          e.category = "tech_icons")) ∧
    techIconsOf exTechsJson = Except.ok ["laser_1", "armor_1"] ∧
    swapNamesOf exSwapsJson = Except.ok ["laser_1", "special_swap"] ∧
    ((build_asset_manifest "S" "O" ["laser_1", "armor_1"] ["laser_1", "special_swap"]).filter
      (fun e => e.category == "tech_icons")).map (fun e => e.name) = ["armor_1", "laser_1"] ∧
    ((build_asset_manifest "S" "O" ["laser_1", "armor_1"] ["laser_1", "special_swap"]).filter
      (fun e => e.category == "swap_icons")).map (fun e => e.name) = ["special_swap"] := by
  refine ⟨?_, by rfl, by rfl, by decide, by decide⟩
  intro sp od ti sn n h1 h2
  exact c3_general sp od ti sn n h1 h2

theorem c3_dedup_amended_witness :
    ("laser_1" ∈ (["laser_1", "armor_1"] : List String)) ∧
    ("laser_1" ∈ (["laser_1", "special_swap"] : List String)) ∧
    ((build_asset_manifest "S" "O" ["laser_1", "armor_1"] ["laser_1", "special_swap"]).filter
      (fun e => e.name == "laser_1" &&
        (e.category == "tech_icons" || e.category == "swap_icons"))).length = 1 :=
  ⟨by decide, by decide,
   (c3_dedup_amended.1 "S" "O" ["laser_1", "armor_1"] ["laser_1", "special_swap"] "laser_1"
     (by decide) (by decide)).1⟩

/-! ### Claims about the stage converters -/

/-- The failure causes of an external-tool invocation: nonzero exit code,
timeout, or invocation exception. -/
def isToolFailure : ToolResult → Bool
  | ToolResult.completed rc _ => rc != 0
  | ToolResult.timedOut => true
  | ToolResult.raised _ => true

/-- C6: each stage conversion is a total function returning a boolean result
(never raising to its caller): it returns failure exactly on a nonzero exit
code, a timeout, or an invocation exception, logging one captured error line
in each of those cases and none on success. -/
theorem c6_stage_converter_contract (src dst : String) (lossless : Bool) (jobs : Int)
    (r : ToolResult) :
    ((dds_to_png src dst r).1 = false ↔ isToolFailure r = true) ∧
    (isToolFailure r = true → (dds_to_png src dst r).2.length = 1) ∧
    (isToolFailure r = false → (dds_to_png src dst r).2 = []) ∧
    ((png_to_avif src dst lossless jobs r).1 = false ↔ isToolFailure r = true) ∧
    (isToolFailure r = true → (png_to_avif src dst lossless jobs r).2.length = 1) ∧
    (isToolFailure r = false → (png_to_avif src dst lossless jobs r).2 = []) := by
  cases r with
  | completed rc stderr =>
      simp only [dds_to_png, png_to_avif, isToolFailure]
      split_ifs <;> simp_all
  | timedOut => simp [dds_to_png, png_to_avif, isToolFailure]
  | raised e => simp [dds_to_png, png_to_avif, isToolFailure]

theorem c6_stage_converter_contract_witness :
    isToolFailure ToolResult.timedOut = true ∧
    (dds_to_png "a.dds" "a.png" ToolResult.timedOut).2.length = 1 ∧
    (png_to_avif "a.png" "a.avif" true 0 ToolResult.timedOut).1 = false :=
  ⟨by decide,
   (c6_stage_converter_contract "a.dds" "a.png" true 0 ToolResult.timedOut).2.1 (by decide),
   (c6_stage_converter_contract "a.dds" "a.png" true 0 ToolResult.timedOut).2.2.2.1.mpr
     (by decide)⟩

/-! ### Claims about the pipeline driver -/

/-- C7: an asset whose source DDS is absent is skipped: the skipped counter is
incremented and a warning recorded, the failed and converted counters are
untouched, no conversion is invoked (trace unchanged) and nothing is written
(files unchanged), and the loop continues with the remaining assets. -/
theorem c7_skip_not_fail (args : Args) (w : World) (s : RunState) (entry : AssetEntry)
    (rest : List AssetEntry) (h : w.dds_is_file entry.src_dds = false) :
    (processEntry args w s entry).stats.skipped = s.stats.skipped + 1 ∧
    (processEntry args w s entry).stats.warnings =
      s.stats.warnings ++ [entry.category ++ "/" ++ entry.name ++ ": DDS missing"] ∧
    (processEntry args w s entry).stats.failed = s.stats.failed ∧
    (processEntry args w s entry).stats.converted = s.stats.converted ∧
    (processEntry args w s entry).trace = s.trace ∧
    (processEntry args w s entry).files = s.files ∧
    mainPass args w (entry :: rest) s = mainPass args w rest (processEntry args w s entry) := by
  refine ⟨?_, ?_, ?_, ?_, ?_, ?_, rfl⟩ <;> unfold processEntry <;> simp [h]

/-- Shared concrete configuration for the driver witnesses. -/
def wArgs : Args :=
  { stellaris_path := "S", output_dir := "O", data_dir := "D",
    dry_run := false, no_avif := false, jobs := 2 }

/-- Shared concrete asset for the driver witnesses. -/
def wEntry : AssetEntry :=
  { name := "x", category := "tech_icons",
    src_dds := "S/gfx/interface/icons/technologies/x.dds",
    dst_png := "O/png/tech_icons/x.png",
    dst_avif := "O/avif/tech_icons/x.avif",
    lossless := true }

/-- A fresh empty pipeline state. -/
def emptyState : RunState := { stats := {}, files := [], trace := [] }

/-- Parsed-but-empty metadata (both files present, valid, empty objects). -/
def okJson : Option (Option Json) := some (some (Json.jobj []))

/-- A world whose filesystem has no DDS source files at all. -/
def wWorldMissing : World :=
  { tech_dir_is_dir := true, tech_json := okJson, swap_json := okJson,
    has_magick := true, has_avifenc := true,
    dds_is_file := fun _ => false, dds_size := fun _ => 0, out_size := fun _ => 0,
    magick_result := fun _ _ => ToolResult.completed 0 "",
    avif_result := fun _ _ => ToolResult.completed 0 "",
    crop_result := fun _ _ => ToolResult.completed 0 "",
    initial_out_files := [] }

theorem c7_skip_not_fail_witness :
    wWorldMissing.dds_is_file wEntry.src_dds = false ∧
    (processEntry wArgs wWorldMissing emptyState wEntry).stats.skipped =
      emptyState.stats.skipped + 1 ∧
    (processEntry wArgs wWorldMissing emptyState wEntry).stats.failed =
      emptyState.stats.failed :=
  ⟨by decide,
   (c7_skip_not_fail wArgs wWorldMissing emptyState wEntry [] (by decide)).1,
   (c7_skip_not_fail wArgs wWorldMissing emptyState wEntry [] (by decide)).2.2.1⟩

/-- C8: when stage one succeeded and stage two fails, the stage-one PNG
output is retained (it is among the produced files, and the file set only
grows — nothing is ever deleted), only the failed counter is incremented
(skipped and converted untouched), and the loop continues with the remaining
assets. -/
theorem c8_stage_isolation (args : Args) (w : World) (s : RunState) (entry : AssetEntry)
    (rest : List AssetEntry)
    (hsrc : w.dds_is_file entry.src_dds = true)
    (havif : args.no_avif = false)
    (h1 : (dds_to_png entry.src_dds entry.dst_png
            (w.magick_result entry.src_dds entry.dst_png)).1 = true)
    (h2 : (png_to_avif entry.dst_png entry.dst_avif entry.lossless args.jobs
            (w.avif_result entry.dst_png entry.dst_avif)).1 = false) :
    entry.dst_png ∈ (processEntry args w s entry).files ∧
    (processEntry args w s entry).files = s.files ++ [entry.dst_png] ∧
    (processEntry args w s entry).stats.failed = s.stats.failed + 1 ∧
    (processEntry args w s entry).stats.skipped = s.stats.skipped ∧
    (processEntry args w s entry).stats.converted = s.stats.converted ∧
    mainPass args w (entry :: rest) s = mainPass args w rest (processEntry args w s entry) := by
  refine ⟨?_, ?_, ?_, ?_, ?_, rfl⟩ <;> unfold processEntry <;> simp [hsrc, havif, h1, h2]

/-- A world in which every DDS exists and stage one succeeds but stage two
(avifenc) always fails with a nonzero exit code. -/
def wWorldStage2Fail : World :=
  { tech_dir_is_dir := true, tech_json := okJson, swap_json := okJson,
    has_magick := true, has_avifenc := true,
    dds_is_file := fun _ => true, dds_size := fun _ => 7, out_size := fun _ => 3,
    magick_result := fun _ _ => ToolResult.completed 0 "",
    avif_result := fun _ _ => ToolResult.completed 1 "encode error",
    crop_result := fun _ _ => ToolResult.completed 0 "",
    initial_out_files := [] }

theorem c8_stage_isolation_witness :
    (png_to_avif wEntry.dst_png wEntry.dst_avif wEntry.lossless wArgs.jobs
      (wWorldStage2Fail.avif_result wEntry.dst_png wEntry.dst_avif)).1 = false ∧
    wEntry.dst_png ∈ (processEntry wArgs wWorldStage2Fail emptyState wEntry).files ∧
    (processEntry wArgs wWorldStage2Fail emptyState wEntry).stats.failed =
      emptyState.stats.failed + 1 :=
  ⟨by decide,
   (c8_stage_isolation wArgs wWorldStage2Fail emptyState wEntry [] (by decide) (by decide)
     (by decide) (by decide)).1,
   (c8_stage_isolation wArgs wWorldStage2Fail emptyState wEntry [] (by decide) (by decide)
     (by decide) (by decide)).2.2.1⟩

/-- Each main-pass iteration leaves `total` unchanged, moves each of the
skipped/failed/converted counters by at most one, and increments their sum by
exactly one. -/
theorem processEntry_counters (args : Args) (w : World) (s : RunState) (e : AssetEntry) :
    (processEntry args w s e).stats.total = s.stats.total ∧
    ((processEntry args w s e).stats.skipped = s.stats.skipped ∨
     (processEntry args w s e).stats.skipped = s.stats.skipped + 1) ∧
    ((processEntry args w s e).stats.failed = s.stats.failed ∨
     (processEntry args w s e).stats.failed = s.stats.failed + 1) ∧
    ((processEntry args w s e).stats.converted = s.stats.converted ∨
     (processEntry args w s e).stats.converted = s.stats.converted + 1) ∧
    (processEntry args w s e).stats.skipped + (processEntry args w s e).stats.failed +
      (processEntry args w s e).stats.converted
      = s.stats.skipped + s.stats.failed + s.stats.converted + 1 := by
  unfold processEntry
  dsimp only
  split_ifs <;> simp <;> omega

/-- The counter invariant extends along the whole main pass. -/
theorem mainPass_counters (args : Args) (w : World) :
    ∀ (l : List AssetEntry) (s : RunState),
      (mainPass args w l s).stats.total = s.stats.total ∧
      (mainPass args w l s).stats.skipped + (mainPass args w l s).stats.failed +
        (mainPass args w l s).stats.converted
        = s.stats.skipped + s.stats.failed + s.stats.converted + l.length := by
  intro l
  induction l with
  | nil => intro s; simp [mainPass]
  | cons e t ih =>
      intro s
      obtain ⟨ht1, _, _, _, hsum1⟩ := processEntry_counters args w s e
      obtain ⟨ht2, hsum2⟩ := ih (processEntry args w s e)
      have hstep : mainPass args w (e :: t) s = mainPass args w t (processEntry args w s e) := rfl
      rw [hstep]
      refine ⟨by rw [ht2, ht1], ?_⟩
      rw [hsum2, hsum1, List.length_cons]
      omega

/-- A crop iteration never touches the four counters. -/
theorem cropStep_counters (args : Args) (w : World) (s : RunState) (c : String × CropRegion) :
    (cropStep args w s c).stats.total = s.stats.total ∧
    (cropStep args w s c).stats.skipped = s.stats.skipped ∧
    (cropStep args w s c).stats.failed = s.stats.failed ∧
    (cropStep args w s c).stats.converted = s.stats.converted := by
  unfold cropStep
  dsimp only
  split_ifs <;> simp

/-- Counter preservation extends along any sequence of crop iterations. -/
theorem foldl_cropStep_counters (args : Args) (w : World) :
    ∀ (l : List (String × CropRegion)) (s : RunState),
      ((l.foldl (cropStep args w) s).stats.total = s.stats.total ∧
       (l.foldl (cropStep args w) s).stats.skipped = s.stats.skipped ∧
       (l.foldl (cropStep args w) s).stats.failed = s.stats.failed ∧
       (l.foldl (cropStep args w) s).stats.converted = s.stats.converted) := by
  intro l
  induction l with
  | nil => intro s; simp
  | cons c t ih =>
      intro s
      obtain ⟨h1, h2, h3, h4⟩ := cropStep_counters args w s c
      obtain ⟨g1, g2, g3, g4⟩ := ih (cropStep args w s c)
      refine ⟨?_, ?_, ?_, ?_⟩ <;> simp only [List.foldl_cons] <;> omega

/-- The sprite-crop pass never touches the four counters. -/
theorem processCrops_counters (args : Args) (w : World) (s : RunState) :
    (processCrops args w s).stats.total = s.stats.total ∧
    (processCrops args w s).stats.skipped = s.stats.skipped ∧
    (processCrops args w s).stats.failed = s.stats.failed ∧
    (processCrops args w s).stats.converted = s.stats.converted := by
  unfold processCrops
  split_ifs with h
  · exact foldl_cropStep_counters args w CHECKBOX_REGIONS s
  · simp

/-- Unfolding of `main` for a run that passes validation, builds the
manifest, and is not a dry run: the result is the exit code computed from the
state after the main pass and the sprite-crop pass. -/
theorem main_run_eq (args : Args) (w : World) (manifest : List AssetEntry)
    (hv1 : w.tech_dir_is_dir = true) (hv2 : w.tech_json.isSome = true)
    (hv3 : w.has_magick = true) (hv4 : args.no_avif = true ∨ w.has_avifenc = true)
    (hb : build_asset_manifest_io args.stellaris_path args.output_dir w.tech_json w.swap_json
      = Except.ok manifest)
    (hd : args.dry_run = false) :
    main args w =
      (if (processCrops args w (mainPass args w manifest (loopInit args w manifest))).stats.failed > 0
        then 1 else 0,
       processCrops args w (mainPass args w manifest (loopInit args w manifest))) := by
  unfold main
  rcases hv4 with h | h <;> simp [hv1, hv2, hv3, h, hb, hd]

/-- C10: for a run that enters the processing loop, the main pass preserves
the counter partition — skipped + failed + converted equals total, which is
the manifest length — and the sprite-crop pass modifies none of the total,
skipped, failed, or converted counters; each iteration of the main pass
increments exactly one of the three counters. -/
theorem c10_counter_partition (args : Args) (w : World) (manifest : List AssetEntry)
    (hv1 : w.tech_dir_is_dir = true) (hv2 : w.tech_json.isSome = true)
    (hv3 : w.has_magick = true) (hv4 : args.no_avif = true ∨ w.has_avifenc = true)
    (hb : build_asset_manifest_io args.stellaris_path args.output_dir w.tech_json w.swap_json
      = Except.ok manifest)
    (hd : args.dry_run = false) :
    (main args w).2.stats.total = manifest.length ∧
    (main args w).2.stats.skipped + (main args w).2.stats.failed +
      (main args w).2.stats.converted = manifest.length ∧
    (∀ s : RunState,
      (processCrops args w s).stats.total = s.stats.total ∧
      (processCrops args w s).stats.skipped = s.stats.skipped ∧
      (processCrops args w s).stats.failed = s.stats.failed ∧
      (processCrops args w s).stats.converted = s.stats.converted) ∧
    (∀ (s : RunState) (e : AssetEntry),
      (processEntry args w s e).stats.skipped + (processEntry args w s e).stats.failed +
        (processEntry args w s e).stats.converted
        = s.stats.skipped + s.stats.failed + s.stats.converted + 1) := by
  rw [main_run_eq args w manifest hv1 hv2 hv3 hv4 hb hd]
  obtain ⟨p1, p2, p3, p4⟩ :=
    processCrops_counters args w (mainPass args w manifest (loopInit args w manifest))
  obtain ⟨m1, m2⟩ := mainPass_counters args w manifest (loopInit args w manifest)
  have hinit : (loopInit args w manifest).stats = { total := manifest.length } := rfl
  refine ⟨?_, ?_, fun s => processCrops_counters args w s,
    fun s e => (processEntry_counters args w s e).2.2.2.2⟩
  · show (processCrops args w (mainPass args w manifest (loopInit args w manifest))).stats.total = _
    rw [p1, m1, hinit]
  · show (processCrops args w (mainPass args w manifest (loopInit args w manifest))).stats.skipped + _ + _ = _
    rw [p2, p3, p4, m2, hinit]
    simp

/-- Concrete configuration for the crop-failure runs: PNG-only mode
(`--no-avif`), not a dry run. -/
def cArgs : Args :=
  { stellaris_path := "S", output_dir := "O", data_dir := "D",
    dry_run := false, no_avif := true, jobs := 0 }

/-- A world in which validation passes, the metadata is empty (so the
manifest is exactly the 21 fixed entries), every source exists, every
conversion succeeds — and every sprite crop fails with a nonzero exit
code. -/
def wWorldCropFail : World :=
  { tech_dir_is_dir := true, tech_json := okJson, swap_json := okJson,
    has_magick := true, has_avifenc := true,
    dds_is_file := fun _ => true, dds_size := fun _ => 5, out_size := fun _ => 2,
    magick_result := fun _ _ => ToolResult.completed 0 "",
    avif_result := fun _ _ => ToolResult.completed 0 "",
    crop_result := fun _ _ => ToolResult.completed 1 "crop error",
    initial_out_files := [] }

/-- C1 counterexample: a run in which every manifest asset converts but all
three sprite-crop operations fail (their error messages are recorded) still
exits with status 0 — refuting the claim that the process returns 1 whenever
any sprite-crop operation fails. -/
theorem c1_exit_claim_counterexample :
    (main cArgs wWorldCropFail).2.stats.errors =
      ["sprites/checkbox_normal: crop failed", "sprites/checkbox_pressed: crop failed",
       "sprites/checkbox_hover: crop failed"] ∧
    (main cArgs wWorldCropFail).1 = 0 := by
  refine ⟨by decide, by decide⟩

/-- C1 (amended): for every run that enters the processing loop, the process
returns 1 exactly when the failed counter is positive and 0 exactly when it
is zero; the failed counter is determined by the main pass alone — the
sprite-crop pass never changes it, so crop failures do not affect the exit
status. -/
theorem c1_exit_amended (args : Args) (w : World) (manifest : List AssetEntry)
    (hv1 : w.tech_dir_is_dir = true) (hv2 : w.tech_json.isSome = true)
    (hv3 : w.has_magick = true) (hv4 : args.no_avif = true ∨ w.has_avifenc = true)
    (hb : build_asset_manifest_io args.stellaris_path args.output_dir w.tech_json w.swap_json
      = Except.ok manifest)
    (hd : args.dry_run = false) :
    ((main args w).1 = 1 ↔ 0 < (main args w).2.stats.failed) ∧
    ((main args w).1 = 0 ↔ (main args w).2.stats.failed = 0) ∧
    (main args w).2.stats.failed =
      (mainPass args w manifest (loopInit args w manifest)).stats.failed := by
  rw [main_run_eq args w manifest hv1 hv2 hv3 hv4 hb hd]
  have hpc :=
    (processCrops_counters args w (mainPass args w manifest (loopInit args w manifest))).2.2.1
  refine ⟨?_, ?_, hpc⟩ <;> dsimp only <;> split_ifs with hgt <;> simp <;> omega

theorem c1_exit_amended_witness :
    ((main cArgs wWorldCropFail).1 = 1 ↔ 0 < (main cArgs wWorldCropFail).2.stats.failed) :=
  (c1_exit_amended cArgs wWorldCropFail (build_asset_manifest "S" "O" [] [])
    rfl rfl rfl (Or.inl rfl) rfl rfl).1

/-- Concrete configuration with AVIF conversion enabled, for the
crop-AVIF-failure run. -/
def cArgs2 : Args :=
  { stellaris_path := "S", output_dir := "O", data_dir := "D",
    dry_run := false, no_avif := false, jobs := 0 }

/-- A world in which everything succeeds except the stage-two conversion of
the first sprite crop (`checkbox_normal`). -/
def wWorldCropAvifFail : World :=
  { tech_dir_is_dir := true, tech_json := okJson, swap_json := okJson,
    has_magick := true, has_avifenc := true,
    dds_is_file := fun _ => true, dds_size := fun _ => 5, out_size := fun _ => 2,
    magick_result := fun _ _ => ToolResult.completed 0 "",
    avif_result := fun src _ =>
      if src = "O/png/sprites/checkbox_normal.png" then ToolResult.completed 1 "encode error"
      else ToolResult.completed 0 "",
    crop_result := fun _ _ => ToolResult.completed 0 "",
    initial_out_files := [] }

/-- C2 counterexample: a crop whose stage-two conversion fails gets its error
message appended, but — unlike a stage failure in the main pass — the failed
counter is NOT incremented (it stays 0), and successful crops do not
increment the converted counter (it stays at the 21 main-pass conversions).
This refutes the claim that the sprite-crop pass updates the statistics
accumulator identically to steps 2–4 of the main pass. -/
theorem c2_crop_stats_counterexample :
    (main cArgs2 wWorldCropAvifFail).2.stats.errors =
      ["sprites/checkbox_normal: PNG to AVIF failed"] ∧
    (main cArgs2 wWorldCropAvifFail).2.stats.failed = 0 ∧
    (main cArgs2 wWorldCropAvifFail).2.stats.converted = 21 ∧
    (main cArgs2 wWorldCropAvifFail).1 = 0 := by
  refine ⟨by decide, by decide, by decide, by decide⟩

/-- C2 (amended): a sprite-crop iteration never changes the failed, skipped,
or converted counters.  A failure of the crop operation appends a crop error
message (leaving byte totals unchanged); a failure of its stage-two
conversion appends an AVIF error message after the crop PNG bytes were
counted; a full success adds the PNG and AVIF byte sizes and appends no
error.  This differs from steps 2–4 of the main pass, which increment failed
on failure and converted on success. -/
theorem c2_crop_stats_amended (args : Args) (w : World) (s : RunState)
    (c : String × CropRegion) :
    (cropStep args w s c).stats.failed = s.stats.failed ∧
    (cropStep args w s c).stats.skipped = s.stats.skipped ∧
    (cropStep args w s c).stats.converted = s.stats.converted ∧
    ((crop_sprite (checkbox_png_path args) c.2 (crop_png_path args c.1)
        (w.crop_result (checkbox_png_path args) (crop_png_path args c.1))).1 = false →
      (cropStep args w s c).stats.errors =
        s.stats.errors ++ ["sprites/" ++ c.1 ++ ": crop failed"] ∧
      (cropStep args w s c).stats.png_bytes = s.stats.png_bytes ∧
      (cropStep args w s c).stats.avif_bytes = s.stats.avif_bytes) ∧
    ((crop_sprite (checkbox_png_path args) c.2 (crop_png_path args c.1)
        (w.crop_result (checkbox_png_path args) (crop_png_path args c.1))).1 = true →
      args.no_avif = false →
      (png_to_avif (crop_png_path args c.1) (crop_avif_path args c.1) true args.jobs
        (w.avif_result (crop_png_path args c.1) (crop_avif_path args c.1))).1 = false →
      (cropStep args w s c).stats.errors =
        s.stats.errors ++ ["sprites/" ++ c.1 ++ ": PNG to AVIF failed"] ∧
      (cropStep args w s c).stats.png_bytes =
        s.stats.png_bytes + w.out_size (crop_png_path args c.1)) ∧
    ((crop_sprite (checkbox_png_path args) c.2 (crop_png_path args c.1)
        (w.crop_result (checkbox_png_path args) (crop_png_path args c.1))).1 = true →
      args.no_avif = false →
      (png_to_avif (crop_png_path args c.1) (crop_avif_path args c.1) true args.jobs
        (w.avif_result (crop_png_path args c.1) (crop_avif_path args c.1))).1 = true →
      (cropStep args w s c).stats.errors = s.stats.errors ∧
      (cropStep args w s c).stats.png_bytes =
        s.stats.png_bytes + w.out_size (crop_png_path args c.1) ∧
      (cropStep args w s c).stats.avif_bytes =
        s.stats.avif_bytes + w.out_size (crop_avif_path args c.1)) := by
  unfold cropStep
  dsimp only
  split_ifs with h1 h2 h3 <;> simp_all

theorem c2_crop_stats_amended_witness :
    (cropStep cArgs wWorldCropFail emptyState ("checkbox_normal", (11, 11, 26, 26))).stats.failed
      = emptyState.stats.failed ∧
    (cropStep cArgs wWorldCropFail emptyState ("checkbox_normal", (11, 11, 26, 26))).stats.errors
      = emptyState.stats.errors ++ ["sprites/checkbox_normal: crop failed"] :=
  ⟨(c2_crop_stats_amended cArgs wWorldCropFail emptyState ("checkbox_normal", (11, 11, 26, 26))).1,
   ((c2_crop_stats_amended cArgs wWorldCropFail emptyState
      ("checkbox_normal", (11, 11, 26, 26))).2.2.2.1 (by decide)).1⟩

/-- C5: when either metadata file is absent or malformed — i.e. the manifest
build raises — the run exits with status 1, no external tool is ever invoked
and no directory is created (empty effect trace), and the output root is
untouched. -/
theorem c5_metadata_error (args : Args) (w : World)
    (h : ∃ err, build_asset_manifest_io args.stellaris_path args.output_dir
      w.tech_json w.swap_json = Except.error err) :
    (main args w).1 = 1 ∧ (main args w).2.trace = [] ∧
    (main args w).2.files = w.initial_out_files := by
  obtain ⟨err, hb⟩ := h
  unfold main
  cases hb1 : w.tech_dir_is_dir with
  | false => simp [hb1]
  | true =>
    cases hb2 : w.tech_json.isSome with
    | false => simp [hb1, hb2]
    | true =>
      cases hb3 : w.has_magick with
      | false => simp [hb1, hb2, hb3]
      | true =>
        cases hb4 : (!args.no_avif && !w.has_avifenc) with
        | true => simp [hb1, hb2, hb3, hb4]
        | false => simp [hb1, hb2, hb3, hb4, hb]

/-- A world whose `technologies.json` is absent. -/
def wWorldNoTechFile : World :=
  { tech_dir_is_dir := true, tech_json := none, swap_json := okJson,
    has_magick := true, has_avifenc := true,
    dds_is_file := fun _ => true, dds_size := fun _ => 5, out_size := fun _ => 2,
    magick_result := fun _ _ => ToolResult.completed 0 "",
    avif_result := fun _ _ => ToolResult.completed 0 "",
    crop_result := fun _ _ => ToolResult.completed 0 "",
    initial_out_files := [] }

theorem c5_metadata_error_witness :
    (main wArgs wWorldNoTechFile).1 = 1 ∧ (main wArgs wWorldNoTechFile).2.trace = [] :=
  ⟨(c5_metadata_error wArgs wWorldNoTechFile
      ⟨"FileNotFoundError: technologies.json", rfl⟩).1,
   (c5_metadata_error wArgs wWorldNoTechFile
      ⟨"FileNotFoundError: technologies.json", rfl⟩).2.1⟩

/-- C9: a dry run that passes pre-flight validation (paths, tools, metadata)
performs manifest construction but invokes no conversion tool and creates no
directory (empty effect trace), leaves the output root untouched, and exits
0 — with no assumption on which source DDS files exist. -/
theorem c9_dry_run_purity (args : Args) (w : World) (manifest : List AssetEntry)
    (hd : args.dry_run = true)
    (hv1 : w.tech_dir_is_dir = true) (hv2 : w.tech_json.isSome = true)
    (hv3 : w.has_magick = true) (hv4 : args.no_avif = true ∨ w.has_avifenc = true)
    (hb : build_asset_manifest_io args.stellaris_path args.output_dir w.tech_json w.swap_json
      = Except.ok manifest) :
    (main args w).1 = 0 ∧ (main args w).2.trace = [] ∧
    (main args w).2.files = w.initial_out_files := by
  unfold main
  rcases hv4 with h | h <;> simp [hv1, hv2, hv3, h, hb, hd]

/-- Dry-run configuration with AVIF enabled. -/
def dArgs : Args :=
  { stellaris_path := "S", output_dir := "O", data_dir := "D",
    dry_run := true, no_avif := false, jobs := 0 }

theorem c9_dry_run_purity_witness :
    (main dArgs wWorldMissing).1 = 0 ∧ (main dArgs wWorldMissing).2.trace = [] :=
  ⟨(c9_dry_run_purity dArgs wWorldMissing (build_asset_manifest "S" "O" [] [])
      rfl rfl rfl rfl (Or.inr rfl) rfl).1,
   (c9_dry_run_purity dArgs wWorldMissing (build_asset_manifest "S" "O" [] [])
      rfl rfl rfl rfl (Or.inr rfl) rfl).2.1⟩

theorem c10_counter_partition_witness :
    (main cArgs wWorldCropFail).2.stats.total =
      (build_asset_manifest "S" "O" [] []).length ∧
    (main cArgs wWorldCropFail).2.stats.skipped + (main cArgs wWorldCropFail).2.stats.failed +
      (main cArgs wWorldCropFail).2.stats.converted =
      (build_asset_manifest "S" "O" [] []).length :=
  ⟨(c10_counter_partition cArgs wWorldCropFail (build_asset_manifest "S" "O" [] [])
      rfl rfl rfl (Or.inl rfl) rfl rfl).1,
   (c10_counter_partition cArgs wWorldCropFail (build_asset_manifest "S" "O" [] [])
      rfl rfl rfl (Or.inl rfl) rfl rfl).2.1⟩

end ExtractMedia
